import Mathlib

/-!
Shallow embedding of `src/backend/relevance_filter.py`: the NBA box-score
relevance filter and LLM-prompt composer.  Python dictionaries become
association lists over a dynamic value type `JVal`; Python `dict.get`
with a default becomes `dictGet`; dynamic type errors (`AttributeError`
from calling `.get` on a non-dict, `TypeError` from ordering a
non-number against a number) are modelled with `Except PyErr`.
Numbers (Python `int`, `float`, `bool`) are modelled exactly with
`Int`, `Rat` and `Bool`; Python compares them by exact value, which the
rational embedding reproduces.
-/

set_option autoImplicit false

namespace NbaRecap

/-- Dynamic Python value: string, int, float (as an exact rational),
bool, or dictionary (association list keyed by strings). -/
inductive JVal where
  | s (v : String)
  | i (v : Int)
  | f (v : Rat)
  | b (v : Bool)
  | o (fields : List (String × JVal))
deriving Repr

/-- Python exceptions that the embedded code can raise. -/
inductive PyErr where
  | attributeError
  | typeError
deriving Repr, DecidableEq

deriving instance DecidableEq for Except

/-- Python `str()` of a value, as used inside f-strings.  Ints and bools
are rendered exactly; a float renders with a trailing `.0` when integral
(no claim depends on the decimal rendering of non-integral floats, which
is approximated by the num/den form); a dict renders between braces. -/
def pyStr : JVal → String
  | .s v => v
  | .i n => toString n
  | .f q => if q.den = 1 then toString q.num ++ ".0" else toString q.num ++ "/" ++ toString q.den
  | .b true => "True"
  | .b false => "False"
  | .o fs => "\x7b" ++ pyStrFields fs ++ "\x7d"
where
  /-- Renders the entries of a dict, comma separated. -/
  pyStrFields : List (String × JVal) → String
  | [] => ""
  | [(k, v)] => k ++ ": " ++ pyStr v
  | (k, v) :: rest => k ++ ": " ++ pyStr v ++ ", " ++ pyStrFields rest

/-- Python truthiness: empty string, zero, `False` and the empty dict are
falsy; everything else is truthy. -/
def pyTruthy : JVal → Bool
  | .s v => !(v == "")
  | .i n => !(n == 0)
  | .f q => !(q == 0)
  | .b v => v
  | .o fs => !fs.isEmpty

/-- Numeric view of a value: Python treats `bool` as the ints 0/1 and
compares `int`/`float` by exact value.  Non-numbers have no view. -/
def toNum : JVal → Option Rat
  | .i n => some (n : Rat)
  | .f q => some q
  | .b v => some (if v then 1 else 0)
  | _ => none

/-- First binding of `key` in an association list, or `dflt` when the
key is absent (Python `d.get(key, dflt)` on a dict `d`). -/
def lookupOr (fields : List (String × JVal)) (key : String) (dflt : JVal) : JVal :=
  match fields with
  | [] => dflt
  | (k, v) :: rest => if k = key then v else lookupOr rest key dflt

/-- Python `v.get(key, dflt)`: succeeds on a dict, raises
`AttributeError` on any other receiver. -/
def dictGet (v : JVal) (key : String) (dflt : JVal) : Except PyErr JVal :=
  match v with
  | .o fields => .ok (lookupOr fields key dflt)
  | _ => .error .attributeError

/-- Total lookup on a value already known to be a dict (used only to
state theorems about values on which `dictGet` succeeded). -/
def lookupOrJ (v : JVal) (key : String) (dflt : JVal) : JVal :=
  match v with
  | .o fields => lookupOr fields key dflt
  | _ => dflt

/-- Python `v > q` for a numeric literal `q`: `TypeError` unless `v` is
a number. -/
def pyGtNum (v : JVal) (q : Rat) : Except PyErr Bool :=
  match toNum v with
  | some r => .ok (decide (q < r))
  | none => .error .typeError

/-- Python `v < q` for a numeric literal `q`. -/
def pyLtNum (v : JVal) (q : Rat) : Except PyErr Bool :=
  match toNum v with
  | some r => .ok (decide (r < q))
  | none => .error .typeError

/-- Python `v >= q` for a numeric literal `q`. -/
def pyGeNum (v : JVal) (q : Rat) : Except PyErr Bool :=
  match toNum v with
  | some r => .ok (decide (q ≤ r))
  | none => .error .typeError

/-- Python `v <= q` for a numeric literal `q`. -/
def pyLeNum (v : JVal) (q : Rat) : Except PyErr Bool :=
  match toNum v with
  | some r => .ok (decide (r ≤ q))
  | none => .error .typeError

/-- Python `v == q` for an int literal `q`: never raises; values of
non-numeric type are simply unequal to a number. -/
def pyEqNum (v : JVal) (q : Rat) : Bool :=
  match toNum v with
  | some r => r == q
  | none => false

/-- Python `a - b` on numbers: int/bool operands give an int, a float
operand gives a float; anything else is a `TypeError`. -/
def pySub (a b : JVal) : Except PyErr JVal :=
  match a, b with
  | .i x, .i y => .ok (.i (x - y))
  | .i x, .b y => .ok (.i (x - (if y then 1 else 0)))
  | .b x, .i y => .ok (.i ((if x then 1 else 0) - y))
  | .b x, .b y => .ok (.i ((if x then 1 else 0) - (if y then 1 else 0)))
  | .f x, .f y => .ok (.f (x - y))
  | .f x, .i y => .ok (.f (x - (y : Rat)))
  | .i x, .f y => .ok (.f ((x : Rat) - y))
  | .f x, .b y => .ok (.f (x - (if y then 1 else 0)))
  | .b x, .f y => .ok (.f ((if x then 1 else 0) - y))
  | _, _ => .error .typeError

/-- Python `abs` on the (numeric) results of `pySub`; other shapes are
unreachable at its call sites and returned unchanged. -/
def pyAbs : JVal → JVal
  | .i n => .i n.natAbs
  | .f q => .f |q|
  | v => v

/-- Python comparison `a > b` between two values already known numeric. -/
def pyGtV (a b : JVal) : Except PyErr Bool :=
  match toNum a, toNum b with
  | some x, some y => .ok (decide (y < x))
  | _, _ => .error .typeError

/-- Python comparison `a < b` between two values already known numeric. -/
def pyLtV (a b : JVal) : Except PyErr Bool :=
  match toNum a, toNum b with
  | some x, some y => .ok (decide (x < y))
  | _, _ => .error .typeError

/-- Python `v is True`: identity with the `True` singleton, which only
the boolean `true` satisfies (in particular the int 1 does not). -/
def isTrueBool : JVal → Bool
  | .b true => true
  | _ => false

/-- Python `f"{q:.1%}"`: `q` times 100 rendered with one decimal digit
and a percent sign, rounding ties to even (the rounding of Python float
formatting).  Computed directly on the numerator and denominator with
integer arithmetic: the per-mille value `1000 * num / den` is rounded
half-even by comparing twice the remainder against the denominator. -/
def fmtPctRat (q : Rat) : String :=
  let n : Int := 1000 * q.num
  let d : Int := (q.den : Int)
  let fl : Int := Int.fdiv n d
  let r : Int := n - fl * d
  let m : Int :=
    if 2 * r < d then fl
    else if d < 2 * r then fl + 1
    else if fl % 2 = 0 then fl else fl + 1
  let sign : String := if m < 0 then "-" else ""
  let k : Nat := m.natAbs
  sign ++ toString (k / 10) ++ "." ++ toString (k % 10) ++ "%"

/-- The Python float literal `0.5`, written as an exact rational in
normalized form so that comparisons against it evaluate. -/
def ratHalf : Rat := Rat.mk' 1 2

/-- The Python float literal `0.4`. -/
def ratTwoFifths : Rat := Rat.mk' 2 5

/-- The Python float literal `0.25`. -/
def ratQuarter : Rat := Rat.mk' 1 4

/-- Removes leading whitespace characters. -/
def dropLeadingWs : List Char → List Char
  | [] => []
  | c :: rest => if c.isWhitespace then dropLeadingWs rest else c :: rest

/-- Python `str.strip()` with no argument: drops (ASCII) whitespace from
both ends of the string. -/
def pyStrip (s : String) : String :=
  String.mk ((dropLeadingWs (dropLeadingWs s.data).reverse).reverse)

/-- Percentage formatting of a value at a site guarded by a numeric
comparison, so the non-numeric branch is unreachable. -/
def fmtPct (v : JVal) : String :=
  match toNum v with
  | some q => fmtPctRat q
  | none => ""

/-! ### `determine_time_of_day` (relevance_filter.py, lines 10-33)

The source parses the timestamp with `datetime.fromisoformat` after
replacing `Z` with `+00:00`, classifies the embedded hour, and falls
back to `"evening"` on `ValueError`/`AttributeError`.  The parser below
follows the CPython (≤ 3.10) grammar
`YYYY-MM-DD[*HH[:MM[:SS[.fff[fff]]]][±HH:MM[:SS[.ffffff]]]]`:
any single character separates date and time, the timezone part is
split off at the first `-` (else first `+`) of the time portion, and
the constructed `datetime` validates the field ranges. -/

/-- Value of a decimal digit character. -/
def digitVal? (c : Char) : Option Nat :=
  if c.isDigit then some (c.toNat - 48) else none

/-- Two decimal digits. -/
def twoDigits (c1 c2 : Char) : Option Nat := do
  let a ← digitVal? c1
  let b ← digitVal? c2
  pure (10 * a + b)

/-- Parses exactly two leading digits. -/
def parse2 : List Char → Option (Nat × List Char)
  | c1 :: c2 :: rest => do pure ((← twoDigits c1 c2), rest)
  | _ => none

/-- Parses exactly four leading digits. -/
def parse4 : List Char → Option (Nat × List Char)
  | c1 :: c2 :: c3 :: c4 :: rest => do
    let a ← twoDigits c1 c2
    let b ← twoDigits c3 c4
    pure (100 * a + b, rest)
  | _ => none

/-- Consumes one expected character. -/
def expectChar (c : Char) : List Char → Option (List Char)
  | x :: rest => if x = c then some rest else none
  | [] => none

/-- Gregorian leap year. -/
def isLeap (y : Nat) : Bool :=
  (y % 4 == 0 && y % 100 != 0) || y % 400 == 0

/-- Days in a month, as validated by the `datetime` constructor. -/
def daysInMonth (y m : Nat) : Nat :=
  if m = 2 then (if isLeap y then 29 else 28)
  else if m = 4 ∨ m = 6 ∨ m = 9 ∨ m = 11 then 30 else 31

/-- CPython `_parse_hh_mm_ss_ff`: accepts `HH`, `HH:MM`, `HH:MM:SS`,
`HH:MM:SS.fff` and `HH:MM:SS.ffffff` (no range validation here). -/
def parseHMS : List Char → Option (Nat × Nat × Nat)
  | [h1, h2] => do pure ((← twoDigits h1 h2), 0, 0)
  | [h1, h2, ':', m1, m2] => do
    pure ((← twoDigits h1 h2), (← twoDigits m1 m2), 0)
  | [h1, h2, ':', m1, m2, ':', s1, s2] => do
    pure ((← twoDigits h1 h2), (← twoDigits m1 m2), (← twoDigits s1 s2))
  | h1 :: h2 :: ':' :: m1 :: m2 :: ':' :: s1 :: s2 :: '.' :: frac => do
    guard ((frac.length = 3 ∨ frac.length = 6) ∧ frac.all Char.isDigit)
    pure ((← twoDigits h1 h2), (← twoDigits m1 m2), (← twoDigits s1 s2))
  | _ => none

/-- Splits the time portion at the first `-` (else the first `+`),
which CPython uses to separate the timezone suffix. -/
def splitTz (cs : List Char) : List Char × Option (List Char) :=
  match cs.findIdx? (· == '-') with
  | some i => (cs.take i, some (cs.drop (i + 1)))
  | none =>
    match cs.findIdx? (· == '+') with
    | some i => (cs.take i, some (cs.drop (i + 1)))
    | none => (cs, none)

/-- Hour extracted by `datetime.fromisoformat(s).hour` on CPython ≤ 3.10,
or `none` where it raises `ValueError`.  The embedded local hour is
returned as written; the timezone suffix is validated (it must describe
an offset strictly below 24 hours) but never applied. -/
def parseIsoHour (cs : List Char) : Option Nat := do
  let (y, cs1) ← parse4 cs
  let cs2 ← expectChar '-' cs1
  let (mo, cs3) ← parse2 cs2
  let cs4 ← expectChar '-' cs3
  let (d, cs5) ← parse2 cs4
  guard (1 ≤ y ∧ 1 ≤ mo ∧ mo ≤ 12 ∧ 1 ≤ d ∧ d ≤ daysInMonth y mo)
  match cs5 with
  | [] => pure 0
  | _ :: tstr =>
    let (timestr, tz) := splitTz tstr
    do
      let (h, mi, se) ← parseHMS timestr
      guard (h ≤ 23 ∧ mi ≤ 59 ∧ se ≤ 59)
      match tz with
      | none => pure h
      | some tzstr => do
        guard (tzstr.length = 5 ∨ tzstr.length = 8 ∨ tzstr.length = 15)
        let (th, tm, ts) ← parseHMS tzstr
        guard (th * 3600 + tm * 60 + ts < 86400)
        pure h

/-- Python `s.replace('Z', '+00:00')` specialised to its call site:
every `Z` is replaced. -/
def replaceZ : List Char → List Char
  | [] => []
  | c :: rest =>
    if c = 'Z' then '+' :: '0' :: '0' :: ':' :: '0' :: '0' :: replaceZ rest
    else c :: replaceZ rest

/-- Lines 10-33 of relevance_filter.py.  A non-string argument raises
`AttributeError` at `.replace`, which the `except` clause catches, so
the function is total and then answers `"evening"`. -/
def determine_time_of_day (game_time_local : JVal) : String :=
  match game_time_local with
  | .s str =>
    match parseIsoHour (replaceZ str.data) with
    | some hour =>
      if hour < 12 then "morning"
      else if hour < 17 then "afternoon"
      else "evening"
    | none => "evening"
  | _ => "evening"

/-! ### `extract_team_statistics` (relevance_filter.py, lines 36-99)

The effectful operations (`.get` calls and ordered comparisons) appear
in source order; the emitted lines are grouped into named segments and
concatenated, which is observably the sequence of `stats.append` calls.
The `team_type` argument is received but never read, as in the source. -/

/-- Lines 56-58 of relevance_filter.py: bench points, emitted only if
positive. -/
def teamBenchFacts (team_name : String) (team_stats : JVal) : Except PyErr (List String) := do
  let bench_points ← dictGet team_stats "benchPoints" (.i 0)
  let benchPos ← pyGtNum bench_points 0
  if benchPos then pure [team_name ++ " bench: " ++ pyStr bench_points ++ " points"]
  else pure []

/-- Lines 61-65 of relevance_filter.py: biggest lead, emitted only if
positive, with singular/plural point word and the lead score string. -/
def teamLeadFacts (team_name : String) (team_stats : JVal) : Except PyErr (List String) := do
  let biggest_lead ← dictGet team_stats "biggestLead" (.i 0)
  let leadPos ← pyGtNum biggest_lead 0
  if leadPos then do
    let lead_score ← dictGet team_stats "biggestLeadScore" (.s "")
    let point_word := if pyEqNum biggest_lead 1 then "point" else "points"
    pure [team_name ++ " biggest lead: " ++ pyStr biggest_lead ++ " " ++ point_word ++
      " (" ++ pyStr lead_score ++ ")"]
  else pure []

/-- Lines 68-71 of relevance_filter.py: the rebounds breakdown, always
emitted. -/
def teamReboundFacts (team_name : String) (team_stats : JVal) : Except PyErr (List String) := do
  let rebounds_offensive ← dictGet team_stats "reboundsOffensive" (.i 0)
  let rebounds_defensive ← dictGet team_stats "reboundsDefensive" (.i 0)
  let rebounds_total ← dictGet team_stats "reboundsTotal" (.i 0)
  pure [team_name ++ " rebounds: " ++ pyStr rebounds_total ++ " total (" ++
    pyStr rebounds_offensive ++ " offensive, " ++ pyStr rebounds_defensive ++ " defensive)"]

/-- Lines 74-75 of relevance_filter.py: total turnovers, always emitted. -/
def teamTurnoverFacts (team_name : String) (team_stats : JVal) : Except PyErr (List String) := do
  let turnovers_total ← dictGet team_stats "turnoversTotal" (.i 0)
  pure [team_name ++ " turnovers: " ++ pyStr turnovers_total]

/-- Lines 79-81 of relevance_filter.py: field-goal percentage, emitted
only when above 0.5 or below 0.4 (`or` short-circuits as in Python). -/
def teamFgFacts (team_name : String) (team_stats : JVal) : Except PyErr (List String) := do
  let fg_percentage ← dictGet team_stats "fieldGoalsPercentage" (.i 0)
  let fgHigh ← pyGtNum fg_percentage ratHalf
  let fgNotable ← if fgHigh then pure true else pyLtNum fg_percentage ratTwoFifths
  if fgNotable then pure [team_name ++ " field goal percentage: " ++ fmtPct fg_percentage]
  else pure []

/-- Lines 84-87 of relevance_filter.py: three-pointers, emitted when the
percentage exceeds 0.4 or (percentage below 0.25 and more than 5 made);
`or`/`and` short-circuit as in Python. -/
def teamThreeFacts (team_name : String) (team_stats : JVal) : Except PyErr (List String) := do
  let three_pt_percentage ← dictGet team_stats "threePointersPercentage" (.i 0)
  let three_pt_made ← dictGet team_stats "threePointersMade" (.i 0)
  let tpHigh ← pyGtNum three_pt_percentage ratTwoFifths
  let tpNotable ←
    if tpHigh then pure true
    else do
      let tpLow ← pyLtNum three_pt_percentage ratQuarter
      if tpLow then pyGtNum three_pt_made 5 else pure false
  if tpNotable then
    pure [team_name ++ " three-pointers: " ++ pyStr three_pt_made ++ " made (" ++
      fmtPct three_pt_percentage ++ ")"]
  else pure []

/-- Lines 90-92 of relevance_filter.py: fast-break points, emitted only
when at least 15. -/
def teamFastBreakFacts (team_name : String) (team_stats : JVal) : Except PyErr (List String) := do
  let fast_break_points ← dictGet team_stats "pointsFastBreak" (.i 0)
  let fbBig ← pyGeNum fast_break_points 15
  if fbBig then pure [team_name ++ " fast break points: " ++ pyStr fast_break_points]
  else pure []

/-- Lines 95-97 of relevance_filter.py: points off turnovers, emitted
only when at least 15. -/
def teamPotFacts (team_name : String) (team_stats : JVal) : Except PyErr (List String) := do
  let points_from_turnovers ← dictGet team_stats "pointsFromTurnovers" (.i 0)
  let potBig ← pyGeNum points_from_turnovers 15
  if potBig then pure [team_name ++ " points off turnovers: " ++ pyStr points_from_turnovers]
  else pure []

/-- Lines 36-99 of relevance_filter.py: the per-team extractor, the
segments above concatenated after the always-emitted score line, in the
order of the source appends (which is also its order of dictionary
accesses and comparisons).  The `team_type` argument is received but
never read, as in the source. -/
def extract_team_statistics (team_data : JVal) (team_type : String) :
    Except PyErr (List String) := do
  let teamCity ← dictGet team_data "teamCity" (.s "")
  let teamName ← dictGet team_data "teamName" (.s "")
  let team_name := pyStrip (pyStr teamCity ++ " " ++ pyStr teamName)
  let team_stats ← dictGet team_data "statistics" (.o [])
  let score ← dictGet team_data "score" (.i 0)
  let scoreFacts := [team_name ++ ": " ++ pyStr score ++ " points"]
  let benchFacts ← teamBenchFacts team_name team_stats
  let leadFacts ← teamLeadFacts team_name team_stats
  let reboundFacts ← teamReboundFacts team_name team_stats
  let turnoverFacts ← teamTurnoverFacts team_name team_stats
  let fgFacts ← teamFgFacts team_name team_stats
  let threeFacts ← teamThreeFacts team_name team_stats
  let fastBreakFacts ← teamFastBreakFacts team_name team_stats
  let potFacts ← teamPotFacts team_name team_stats
  pure (scoreFacts ++ benchFacts ++ leadFacts ++ reboundFacts ++ turnoverFacts ++ fgFacts ++
    threeFacts ++ fastBreakFacts ++ potFacts)

/-! ### `calculate_game_context` (relevance_filter.py, lines 102-155) -/

/-- Lines 118-128 of relevance_filter.py: the point differential with
its close-game/blowout banding, always emitted. -/
def ctxPointDiffFacts (home_team away_team : JVal) : Except PyErr (List String) := do
  let home_score ← dictGet home_team "score" (.i 0)
  let away_score ← dictGet away_team "score" (.i 0)
  let diffVal ← pySub home_score away_score
  let point_diff := pyAbs diffVal
  let point_word := if pyEqNum point_diff 1 then "point" else "points"
  let isClose ← pyLeNum point_diff 5
  if isClose then
    pure ["Game was decided by " ++ pyStr point_diff ++ " " ++ point_word ++ " (close game)"]
  else do
    let isMid ← pyLeNum point_diff 10
    if isMid then pure ["Game was decided by " ++ pyStr point_diff ++ " " ++ point_word]
    else pure ["Game was decided by " ++ pyStr point_diff ++ " " ++ point_word ++ " (blowout)"]

/-- Lines 131-135 of relevance_filter.py: lead changes read from the
home statistics, labelled `(back-and-forth)` above 5, plain when
positive, omitted at zero. -/
def ctxLeadFacts (home_stats : JVal) : Except PyErr (List String) := do
  let lead_changes ← dictGet home_stats "leadChanges" (.i 0)
  let lcHigh ← pyGtNum lead_changes 5
  if lcHigh then
    pure ["Game featured " ++ pyStr lead_changes ++ " lead changes (back-and-forth)"]
  else do
    let lcPos ← pyGtNum lead_changes 0
    if lcPos then pure ["Game had " ++ pyStr lead_changes ++ " lead change(s)"]
    else pure []

/-- Lines 138-144 of relevance_filter.py: rebounding dominance when the
totals differ by at least 10; `winner.capitalize()` of the literals
`"home"`/`"away"` is written `"Home"`/`"Away"` directly. -/
def ctxReboundFacts (home_stats away_stats : JVal) : Except PyErr (List String) := do
  let home_rebounds ← dictGet home_stats "reboundsTotal" (.i 0)
  let away_rebounds ← dictGet away_stats "reboundsTotal" (.i 0)
  let rebDiffVal ← pySub home_rebounds away_rebounds
  let rebound_diff := pyAbs rebDiffVal
  let rebBig ← pyGeNum rebound_diff 10
  if rebBig then do
    let homeMore ← pyGtV home_rebounds away_rebounds
    let winner := if homeMore then "Home" else "Away"
    pure [winner ++ " team dominated rebounding (+" ++ pyStr rebound_diff ++ " rebounds)"]
  else pure []

/-- Lines 147-153 of relevance_filter.py: turnover advantage when the
totals differ by at least 5, naming the side with fewer turnovers. -/
def ctxTurnoverFacts (home_stats away_stats : JVal) : Except PyErr (List String) := do
  let home_turnovers ← dictGet home_stats "turnoversTotal" (.i 0)
  let away_turnovers ← dictGet away_stats "turnoversTotal" (.i 0)
  let toDiffVal ← pySub home_turnovers away_turnovers
  let turnover_diff := pyAbs toDiffVal
  let toBig ← pyGeNum turnover_diff 5
  if toBig then do
    let homeFewer ← pyLtV home_turnovers away_turnovers
    let winner := if homeFewer then "Home" else "Away"
    pure [winner ++ " team had " ++ pyStr turnover_diff ++ " fewer turnovers"]
  else pure []

/-- Lines 102-155 of relevance_filter.py: the game-context calculator,
the segments above concatenated in source order (both statistics maps
are fetched first, as in lines 114-115). -/
def calculate_game_context (home_team away_team : JVal) : Except PyErr (List String) := do
  let home_stats ← dictGet home_team "statistics" (.o [])
  let away_stats ← dictGet away_team "statistics" (.o [])
  let diffFacts ← ctxPointDiffFacts home_team away_team
  let leadFacts ← ctxLeadFacts home_stats
  let reboundFacts ← ctxReboundFacts home_stats away_stats
  let turnoverFacts ← ctxTurnoverFacts home_stats away_stats
  pure (diffFacts ++ leadFacts ++ reboundFacts ++ turnoverFacts)

/-! ### `filter_relevant_statistics` (relevance_filter.py, lines 158-204) -/

/-- Lines 158-204 of relevance_filter.py. -/
def filter_relevant_statistics (game_data : JVal) : Except PyErr (List String) := do
  let game ← dictGet game_data "game" (.o [])
  let game_time_local ← dictGet game "gameTimeLocal" (.s "")
  let timeFacts :=
    if pyTruthy game_time_local then
      ["Game was played in the " ++ determine_time_of_day game_time_local]
    else []
  let arena ← dictGet game "arena" (.o [])
  let arena_name ← dictGet arena "arenaName" (.s "")
  let arena_city ← dictGet arena "arenaCity" (.s "")
  let arenaFacts :=
    if pyTruthy arena_name && pyTruthy arena_city then
      ["Venue: " ++ pyStr arena_name ++ " in " ++ pyStr arena_city]
    else []
  let sellout ← dictGet game "sellout" (.s "0")
  let selloutFactList :=
    if pyStr sellout == "1" || isTrueBool sellout then ["Arena was sold out"] else []
  let home_team ← dictGet game "homeTeam" (.o [])
  let away_team ← dictGet game "awayTeam" (.o [])
  let home_stats ← extract_team_statistics home_team "home"
  let away_stats ← extract_team_statistics away_team "away"
  let context_stats ← calculate_game_context home_team away_team
  pure (timeFacts ++ arenaFacts ++ selloutFactList ++ home_stats ++ away_stats ++ context_stats)

/-! ### `generate_llm_prompt` (relevance_filter.py, lines 207-230) -/

/-- Line 221 of relevance_filter.py: the bulleted facts section. -/
def facts_section (relevant_stats : List String) : String :=
  String.intercalate "\n" (relevant_stats.map (fun stat => "- " ++ stat))

/-- Lines 221-228 of relevance_filter.py: the fixed prompt template
around the facts section. -/
def compose_prompt (relevant_stats : List String) (tone : String) : String :=
  "Write a professional NBA recap paragraph.\n\nFacts:\n" ++
    facts_section relevant_stats ++ "\n\nTone: " ++ tone

/-- Lines 207-230 of relevance_filter.py. -/
def generate_llm_prompt (game_data : JVal) (tone : String := "neutral, ESPN-style") :
    Except PyErr String := do
  let relevant_stats ← filter_relevant_statistics game_data
  pure (compose_prompt relevant_stats tone)

/-! ### Helper lemmas for the `Except` embedding -/

theorem okBind {α β : Type} (a : α) (f : α → Except PyErr β) :
    ((Except.ok a : Except PyErr α) >>= f) = f a := rfl

theorem errBind {α β : Type} (e : PyErr) (f : α → Except PyErr β) :
    ((Except.error e : Except PyErr α) >>= f) = Except.error e := rfl

theorem purePure {α : Type} (a : α) : (pure a : Except PyErr α) = Except.ok a := rfl

/-- Whether an association list binds a key. -/
def hasKey (fields : List (String × JVal)) (key : String) : Bool :=
  fields.any (fun kv => kv.1 == key)

theorem lookupOr_of_no_key (fields : List (String × JVal)) (key : String) (dflt : JVal)
    (h : hasKey fields key = false) : lookupOr fields key dflt = dflt := by
  induction fields with
  | nil => rfl
  | cons kv rest ih =>
    simp only [hasKey, List.any_cons, Bool.or_eq_false_iff, beq_eq_false_iff_ne] at h
    simp only [lookupOr, if_neg (by simpa using h.1)]
    exact ih (by simpa [hasKey] using h.2)

/-- Evaluation of the per-team extractor from the results of its
segments. -/
theorem extract_eq (team_data : JVal) (t : String) (city name stats score : JVal)
    (tn : String) (b l r tos fg th fb pot : List String)
    (h1 : dictGet team_data "teamCity" (.s "") = .ok city)
    (h2 : dictGet team_data "teamName" (.s "") = .ok name)
    (h3 : dictGet team_data "statistics" (.o []) = .ok stats)
    (h4 : dictGet team_data "score" (.i 0) = .ok score)
    (htn : pyStrip (pyStr city ++ " " ++ pyStr name) = tn)
    (hb : teamBenchFacts tn stats = .ok b)
    (hl : teamLeadFacts tn stats = .ok l)
    (hr : teamReboundFacts tn stats = .ok r)
    (hto : teamTurnoverFacts tn stats = .ok tos)
    (hfg : teamFgFacts tn stats = .ok fg)
    (hth : teamThreeFacts tn stats = .ok th)
    (hfb : teamFastBreakFacts tn stats = .ok fb)
    (hpot : teamPotFacts tn stats = .ok pot) :
    extract_team_statistics team_data t =
      .ok ([tn ++ ": " ++ pyStr score ++ " points"] ++ b ++ l ++ r ++ tos ++ fg ++ th ++
        fb ++ pot) := by
  unfold extract_team_statistics
  rw [h1]
  simp only [okBind]
  rw [h2]
  simp only [okBind]
  rw [htn, h3]
  simp only [okBind]
  rw [h4]
  simp only [okBind]
  rw [hb]
  simp only [okBind]
  rw [hl]
  simp only [okBind]
  rw [hr]
  simp only [okBind]
  rw [hto]
  simp only [okBind]
  rw [hfg]
  simp only [okBind]
  rw [hth]
  simp only [okBind]
  rw [hfb]
  simp only [okBind]
  rw [hpot]
  simp only [okBind, purePure]

/-- Evaluation of the context calculator from the results of its
segments. -/
theorem context_eq (home_team away_team : JVal) (hs as : JVal) (d l r tos : List String)
    (h1 : dictGet home_team "statistics" (.o []) = .ok hs)
    (h2 : dictGet away_team "statistics" (.o []) = .ok as)
    (hd : ctxPointDiffFacts home_team away_team = .ok d)
    (hl : ctxLeadFacts hs = .ok l)
    (hr : ctxReboundFacts hs as = .ok r)
    (ht : ctxTurnoverFacts hs as = .ok tos) :
    calculate_game_context home_team away_team = .ok (d ++ l ++ r ++ tos) := by
  unfold calculate_game_context
  rw [h1]
  simp only [okBind]
  rw [h2]
  simp only [okBind]
  rw [hd]
  simp only [okBind]
  rw [hl]
  simp only [okBind]
  rw [hr]
  simp only [okBind]
  rw [ht]
  simp only [okBind, purePure]

/-- Evaluation of the orchestrator from the values of its accesses and
the results of the team and context stages. -/
theorem filter_eq (game_data game gtl arena an ac sellout home_team away_team : JVal)
    (hs as cs : List String)
    (h1 : dictGet game_data "game" (.o []) = .ok game)
    (h2 : dictGet game "gameTimeLocal" (.s "") = .ok gtl)
    (h3 : dictGet game "arena" (.o []) = .ok arena)
    (h4 : dictGet arena "arenaName" (.s "") = .ok an)
    (h5 : dictGet arena "arenaCity" (.s "") = .ok ac)
    (h6 : dictGet game "sellout" (.s "0") = .ok sellout)
    (h7 : dictGet game "homeTeam" (.o []) = .ok home_team)
    (h8 : dictGet game "awayTeam" (.o []) = .ok away_team)
    (h9 : extract_team_statistics home_team "home" = .ok hs)
    (h10 : extract_team_statistics away_team "away" = .ok as)
    (h11 : calculate_game_context home_team away_team = .ok cs) :
    filter_relevant_statistics game_data =
      .ok ((if pyTruthy gtl then ["Game was played in the " ++ determine_time_of_day gtl]
            else []) ++
        (if pyTruthy an && pyTruthy ac then ["Venue: " ++ pyStr an ++ " in " ++ pyStr ac]
          else []) ++
        (if pyStr sellout == "1" || isTrueBool sellout then ["Arena was sold out"] else []) ++
        hs ++ as ++ cs) := by
  unfold filter_relevant_statistics
  rw [h1]
  simp only [okBind]
  rw [h2]
  simp only [okBind]
  rw [h3]
  simp only [okBind]
  rw [h4]
  simp only [okBind]
  rw [h5]
  simp only [okBind]
  rw [h6]
  simp only [okBind]
  rw [h7]
  simp only [okBind]
  rw [h8]
  simp only [okBind]
  rw [h9]
  simp only [okBind]
  rw [h10]
  simp only [okBind]
  rw [h11]
  simp only [okBind, purePure]

/-- Evaluation of the prompt generator from the filter result. -/
theorem generate_eq (game_data : JVal) (tone : String) (facts : List String)
    (h : filter_relevant_statistics game_data = .ok facts) :
    generate_llm_prompt game_data tone = .ok (compose_prompt facts tone) := by
  unfold generate_llm_prompt
  rw [h]
  simp only [okBind, purePure]

/-- The segment results on an empty statistics mapping (every field
defaulting to 0). -/
theorem teamBench_defaults (tn : String) : teamBenchFacts tn (.o []) = .ok [] := rfl

theorem teamLead_defaults (tn : String) : teamLeadFacts tn (.o []) = .ok [] := rfl

theorem teamRebound_defaults (tn : String) :
    teamReboundFacts tn (.o []) =
      .ok [tn ++ " rebounds: 0 total (0 offensive, 0 defensive)"] := by
  have h0 : teamReboundFacts tn (.o []) = .ok [tn ++ " rebounds: " ++ pyStr (.i 0) ++
      " total (" ++ pyStr (.i 0) ++ " offensive, " ++ pyStr (.i 0) ++ " defensive)"] := rfl
  rw [h0]
  simp [String.append_assoc, show pyStr (JVal.i 0) = "0" from rfl]

theorem teamTurnover_defaults (tn : String) :
    teamTurnoverFacts tn (.o []) = .ok [tn ++ " turnovers: 0"] := by
  have h0 : teamTurnoverFacts tn (.o []) =
      .ok [tn ++ " turnovers: " ++ pyStr (.i 0)] := rfl
  rw [h0]
  simp [String.append_assoc, show pyStr (JVal.i 0) = "0" from rfl]

theorem teamFg_defaults (tn : String) :
    teamFgFacts tn (.o []) = .ok [tn ++ " field goal percentage: 0.0%"] := by
  have h0 : teamFgFacts tn (.o []) =
      .ok [tn ++ " field goal percentage: " ++ fmtPct (.i 0)] := rfl
  rw [h0]
  simp [String.append_assoc, show fmtPct (JVal.i 0) = "0.0%" from rfl]

theorem teamThree_defaults (tn : String) : teamThreeFacts tn (.o []) = .ok [] := rfl

theorem teamFastBreak_defaults (tn : String) : teamFastBreakFacts tn (.o []) = .ok [] := rfl

theorem teamPot_defaults (tn : String) : teamPotFacts tn (.o []) = .ok [] := rfl

/-! ### Spec-side formulations

These definitions restate contracts in the words of the specification,
for comparison against the functions embedded from the source above. -/

/-- Modelled from the spec (§4.5): one `- `-prefixed line per fact,
newline-joined in insertion order, written as a direct recursion. -/
def bulletLines : List String → String
  | [] => ""
  | [fact] => "- " ++ fact
  | fact :: rest => "- " ++ fact ++ "\n" ++ bulletLines rest

/-- Modelled from the spec (§4.5): the exact prompt template around the
bulleted facts section. -/
def promptTemplate (facts : List String) (tone : String) : String :=
  "Write a professional NBA recap paragraph.\n\nFacts:\n" ++ bulletLines facts ++
    "\n\nTone: " ++ tone

/-- Separator-prefixed join of the tail elements, the loop invariant of
`String.intercalate.go`. -/
def tailJoin (s : String) : List String → String
  | [] => ""
  | a :: as => s ++ a ++ tailJoin s as

theorem intercalate_go_eq (s : String) (as : List String) (acc : String) :
    String.intercalate.go acc s as = acc ++ tailJoin s as := by
  induction as generalizing acc with
  | nil => simp [String.intercalate.go, tailJoin]
  | cons a as ih => simp [String.intercalate.go, tailJoin, ih, String.append_assoc]

theorem bulletLines_cons_eq (x : String) (xs : List String) :
    bulletLines (x :: xs) = "- " ++ x ++ tailJoin "\n" (xs.map (fun f => "- " ++ f)) := by
  induction xs generalizing x with
  | nil => simp [bulletLines, tailJoin]
  | cons y ys ih => simp [bulletLines, tailJoin, ih, String.append_assoc]

theorem facts_section_eq_bullets (facts : List String) :
    facts_section facts = bulletLines facts := by
  cases facts with
  | nil => rfl
  | cons a as =>
    show String.intercalate.go ("- " ++ a) "\n" (as.map (fun f => "- " ++ f)) = _
    rw [intercalate_go_eq, bulletLines_cons_eq]

/-! ### Claim theorems -/

/-- C10: the `team_type` argument of `extract_team_statistics` is
received but never read, so the produced facts are identical for
`"home"`, `"away"`, or any other role label. -/
theorem extract_team_statistics_ignores_team_type (team_data : JVal) (t₁ t₂ : String) :
    extract_team_statistics team_data t₁ = extract_team_statistics team_data t₂ := rfl

/-- C9: for every fact sequence and tone, the composer returns exactly
the fixed template — preamble line, blank line, `Facts:` line, the
facts each prefixed with `- ` and newline-joined in insertion order, a
blank line, and the `Tone:` line — and the default tone of
`generate_llm_prompt` is `"neutral, ESPN-style"`, passed through with no
transformation. -/
theorem compose_prompt_is_template :
    (∀ (facts : List String) (tone : String),
      compose_prompt facts tone = promptTemplate facts tone) ∧
    (∀ game_data : JVal,
      generate_llm_prompt game_data = generate_llm_prompt game_data "neutral, ESPN-style") := by
  refine ⟨fun facts tone => ?_, fun _ => rfl⟩
  simp [compose_prompt, promptTemplate, facts_section_eq_bullets]

/-- C6: the time-of-day classifier is total with range
`morning`/`afternoon`/`evening`; on a string whose embedded local hour
parses it classifies that hour (`< 12` morning, `< 17` afternoon, else
evening) with no timezone conversion; on every non-string, malformed or
unparseable input it returns `"evening"` without raising. -/
theorem determine_time_of_day_total (v : JVal) :
    (determine_time_of_day v = "morning" ∨ determine_time_of_day v = "afternoon" ∨
      determine_time_of_day v = "evening") ∧
    (∀ (str : String) (hour : Nat), v = .s str →
      parseIsoHour (replaceZ str.data) = some hour →
      determine_time_of_day v =
        (if hour < 12 then "morning" else if hour < 17 then "afternoon" else "evening")) ∧
    ((∀ str : String, v = .s str → parseIsoHour (replaceZ str.data) = none) →
      determine_time_of_day v = "evening") := by
  match v with
  | .s str =>
    cases h : parseIsoHour (replaceZ str.data) with
    | none =>
      refine ⟨Or.inr (Or.inr ?_), fun s hr hsv hp => ?_, fun _ => ?_⟩
      · simp [determine_time_of_day, h]
      · cases hsv; rw [h] at hp; cases hp
      · simp [determine_time_of_day, h]
    | some hour =>
      refine ⟨?_, fun s hr hsv hp => ?_, fun habs => ?_⟩
      · simp only [determine_time_of_day, h]
        split
        · exact Or.inl rfl
        · split
          · exact Or.inr (Or.inl rfl)
          · exact Or.inr (Or.inr rfl)
      · cases hsv
        rw [h] at hp
        cases hp
        simp [determine_time_of_day, h]
      · exact absurd (habs str rfl) (by simp [h])
  | .i n => exact ⟨Or.inr (Or.inr rfl), fun s hr hsv => (nomatch hsv), fun _ => rfl⟩
  | .f q => exact ⟨Or.inr (Or.inr rfl), fun s hr hsv => (nomatch hsv), fun _ => rfl⟩
  | .b b => exact ⟨Or.inr (Or.inr rfl), fun s hr hsv => (nomatch hsv), fun _ => rfl⟩
  | .o fs => exact ⟨Or.inr (Or.inr rfl), fun s hr hsv => (nomatch hsv), fun _ => rfl⟩

/-- Witness for C6: the timestamp `2021-01-15T19:30:00-05:00` parses
with embedded local hour 19, and the classifier answers `"evening"`
(the offset is not applied: converting to UTC would give hour 0,
morning). -/
theorem determine_time_of_day_total_witness :
    determine_time_of_day (.s "2021-01-15T19:30:00-05:00") = "evening" := by
  have h := (determine_time_of_day_total (.s "2021-01-15T19:30:00-05:00")).2.1
    "2021-01-15T19:30:00-05:00" 19 rfl (by decide)
  simpa using h

/-- Modelled from the spec (§4.3): the lead-change fact by count band —
more than 5 labelled `(back-and-forth)`, 1 to 5 unlabelled, 0 omitted. -/
def leadChangeFactsSpec (c : Int) : List String :=
  if 5 < c then ["Game featured " ++ toString c ++ " lead changes (back-and-forth)"]
  else if 0 < c then ["Game had " ++ toString c ++ " lead change(s)"]
  else []

/-- C7: with the home statistics carrying `leadChanges = c` (and the
remaining fields defaulted), the context facts are the always-emitted
point-differential line followed by exactly the spec's lead-change
casing: absent for `c = 0` (and below), present without the
`(back-and-forth)` suffix for `1 ≤ c ≤ 5`, present with the suffix for
`c > 5`. -/
theorem calculate_game_context_lead_changes (c : Int) :
    calculate_game_context (.o [("statistics", .o [("leadChanges", .i c)])]) (.o []) =
      .ok ("Game was decided by 0 points (close game)" :: leadChangeFactsSpec c) := by
  have hlead : ctxLeadFacts (.o [("leadChanges", .i c)]) = .ok (leadChangeFactsSpec c) := by
    have e2 : ctxLeadFacts (.o [("leadChanges", .i c)]) =
        (if decide ((5 : Rat) < ((c : Int) : Rat)) = true then
          (pure ["Game featured " ++ pyStr (.i c) ++ " lead changes (back-and-forth)"] :
            Except PyErr (List String))
        else
          if decide ((0 : Rat) < ((c : Int) : Rat)) = true then
            pure ["Game had " ++ pyStr (.i c) ++ " lead change(s)"]
          else pure []) := rfl
    rw [e2]
    by_cases hc5 : 5 < c
    · rw [decide_eq_true (show (5 : Rat) < ((c : Int) : Rat) by exact_mod_cast hc5)]
      simp [leadChangeFactsSpec, hc5, pyStr, purePure]
    · rw [decide_eq_false (show ¬ ((5 : Rat) < ((c : Int) : Rat)) by exact_mod_cast hc5)]
      by_cases hc0 : 0 < c
      · rw [decide_eq_true (show (0 : Rat) < ((c : Int) : Rat) by exact_mod_cast hc0)]
        simp [leadChangeFactsSpec, hc5, hc0, pyStr, purePure]
      · rw [decide_eq_false (show ¬ ((0 : Rat) < ((c : Int) : Rat)) by exact_mod_cast hc0)]
        simp [leadChangeFactsSpec, hc5, hc0, pyStr, purePure]
  have e1 : calculate_game_context (.o [("statistics", .o [("leadChanges", .i c)])]) (.o []) =
      (ctxLeadFacts (.o [("leadChanges", .i c)]) >>= fun leadFacts =>
        Except.ok (["Game was decided by 0 points (close game)"] ++ leadFacts ++ [] ++ [])) :=
    rfl
  rw [e1, hlead, okBind]
  simp

/-- A team record with the field-goal percentage `p` and the other
statistics absent. -/
def fgTeam (p : Rat) : JVal :=
  .o [("teamCity", .s "Boston"), ("teamName", .s "Celtics"), ("score", .i 100),
      ("statistics", .o [("fieldGoalsPercentage", .f p)])]

/-- The always-emitted lines of `fgTeam`. -/
def fgBaseFacts : List String :=
  ["Boston Celtics: 100 points",
   "Boston Celtics rebounds: 0 total (0 offensive, 0 defensive)",
   "Boston Celtics turnovers: 0"]

theorem extract_fgTeam_eval (p : Rat) (t : String) :
    extract_team_statistics (fgTeam p) t =
      .ok (fgBaseFacts ++
        (if ratHalf < p ∨ p < ratTwoFifths then
          ["Boston Celtics field goal percentage: " ++ fmtPctRat p] else [])) := by
  have hfg : teamFgFacts "Boston Celtics" (.o [("fieldGoalsPercentage", .f p)]) =
      .ok (if ratHalf < p ∨ p < ratTwoFifths then
        ["Boston Celtics field goal percentage: " ++ fmtPctRat p] else []) := by
    have e2 : teamFgFacts "Boston Celtics" (.o [("fieldGoalsPercentage", .f p)]) =
        (if decide (ratHalf < p) = true then
          (pure ["Boston Celtics field goal percentage: " ++ fmtPctRat p] :
            Except PyErr (List String))
        else
          if decide (p < ratTwoFifths) = true then
            pure ["Boston Celtics field goal percentage: " ++ fmtPctRat p]
          else pure []) := rfl
    rw [e2]
    by_cases hp : ratHalf < p
    · rw [decide_eq_true hp]
      simp [hp, purePure]
    · rw [decide_eq_false hp]
      by_cases hq : p < ratTwoFifths
      · rw [decide_eq_true hq]
        simp [hp, hq, purePure]
      · rw [decide_eq_false hq]
        simp [hp, hq, purePure]
  have h := extract_eq (fgTeam p) t (.s "Boston") (.s "Celtics")
    (.o [("fieldGoalsPercentage", .f p)]) (.i 100) "Boston Celtics"
    [] [] ["Boston Celtics rebounds: 0 total (0 offensive, 0 defensive)"]
    ["Boston Celtics turnovers: 0"]
    (if ratHalf < p ∨ p < ratTwoFifths then
      ["Boston Celtics field goal percentage: " ++ fmtPctRat p] else [])
    [] [] []
    rfl rfl rfl rfl rfl rfl rfl rfl rfl hfg rfl rfl rfl
  rw [h]
  simp [fgBaseFacts]
  rfl

/-- C4: on a team record with field-goal percentage `p`, the field-goal
fact is emitted exactly when `p > 0.50` or `p < 0.40`; at the boundary
values `p = 0.50` and `p = 0.40` it is not emitted. -/
theorem extract_fg_threshold :
    (∀ (p : Rat) (t : String),
      extract_team_statistics (fgTeam p) t =
        .ok (fgBaseFacts ++
          (if ratHalf < p ∨ p < ratTwoFifths then
            ["Boston Celtics field goal percentage: " ++ fmtPctRat p] else []))) ∧
    extract_team_statistics (fgTeam ratHalf) "home" = .ok fgBaseFacts ∧
    extract_team_statistics (fgTeam ratTwoFifths) "home" = .ok fgBaseFacts := by
  refine ⟨extract_fgTeam_eval, ?_, ?_⟩
  · rw [extract_fgTeam_eval ratHalf "home", if_neg (by decide)]
    simp
  · rw [extract_fgTeam_eval ratTwoFifths "home", if_neg (by decide)]
    simp

/-- The facts produced for a record whose `game` sub-record is (or
defaults to) empty: for each (empty) team the score, rebounds and
turnover lines plus the degenerate `0.0%` field-goal line (the default
0 is below the 0.4 "notable" threshold), then the 0-point close-game
context line. -/
def emptyGameFacts : List String :=
  [": 0 points", " rebounds: 0 total (0 offensive, 0 defensive)", " turnovers: 0",
   " field goal percentage: 0.0%", ": 0 points",
   " rebounds: 0 total (0 offensive, 0 defensive)", " turnovers: 0",
   " field goal percentage: 0.0%", "Game was decided by 0 points (close game)"]

/-- The per-team part of `emptyGameFacts`. -/
def emptyTeamFacts : List String :=
  [": 0 points", " rebounds: 0 total (0 offensive, 0 defensive)", " turnovers: 0",
   " field goal percentage: 0.0%"]

/-- C1 counterexample: a record with no `game` key (the empty
dictionary) does NOT yield an empty fact sequence — the extractor
default-emits nine lines. -/
theorem filter_empty_record_not_empty :
    filter_relevant_statistics (.o []) ≠ .ok ([] : List String) := by
  intro hcontra
  rw [show filter_relevant_statistics (.o []) = .ok emptyGameFacts by decide] at hcontra
  exact absurd (Except.ok.inj hcontra) (by simp [emptyGameFacts])

/-- C1 amended: a record with no `game` key yields exactly the nine
default facts (per-team score/rebounds/turnovers/0.0%-field-goal lines
and the 0-point close-game line), and the Prompt whose facts section
bullets those nine lines, with the preamble and tone lines present. -/
theorem filter_no_game_key (fields : List (String × JVal))
    (h : hasKey fields "game" = false) :
    filter_relevant_statistics (.o fields) = .ok emptyGameFacts ∧
    generate_llm_prompt (.o fields) =
      .ok (compose_prompt emptyGameFacts "neutral, ESPN-style") := by
  have hl : lookupOr fields "game" (.o []) = .o [] :=
    lookupOr_of_no_key fields "game" (.o []) h
  have h1 : dictGet (.o fields) "game" (.o []) = .ok (.o []) := by
    simp [dictGet, hl]
  have h2 := filter_eq (.o fields) (.o []) (.s "") (.o []) (.s "") (.s "") (.s "0")
    (.o []) (.o []) emptyTeamFacts emptyTeamFacts
    ["Game was decided by 0 points (close game)"]
    h1 rfl rfl rfl rfl rfl rfl rfl (by decide) (by decide) (by decide)
  have hfil : filter_relevant_statistics (.o fields) = .ok emptyGameFacts := by
    rw [h2]
    decide
  exact ⟨hfil, generate_eq (.o fields) "neutral, ESPN-style" emptyGameFacts hfil⟩

/-- Witness for C1 amended, at the empty record. -/
theorem filter_no_game_key_witness :
    filter_relevant_statistics (.o []) = .ok emptyGameFacts ∧
    generate_llm_prompt (.o []) =
      .ok (compose_prompt emptyGameFacts "neutral, ESPN-style") :=
  filter_no_game_key [] rfl

/-- A record whose game carries only the sellout indicator. -/
def selloutRec (v : JVal) : JVal := .o [("game", .o [("sellout", v)])]

/-- C2 counterexample: the integer 1 DOES produce the sellout fact,
because Python `str(1)` equals `"1"`. -/
theorem sellout_int_one_emits :
    filter_relevant_statistics (selloutRec (.i 1)) =
      .ok ("Arena was sold out" :: emptyGameFacts) ∧
    "Arena was sold out" ∈ ("Arena was sold out" :: emptyGameFacts) := by
  constructor
  · decide
  · decide

/-- C2 amended: the sellout fact is emitted exactly when the indicator
str()-renders to `"1"` (the string `"1"` or the integer 1) or is the
boolean True; in particular the string `"true"` and the float 1.0 do
not emit it. -/
theorem sellout_condition (v : JVal) :
    filter_relevant_statistics (selloutRec v) =
      .ok ((if pyStr v == "1" || isTrueBool v then ["Arena was sold out"] else []) ++
        emptyGameFacts) ∧
    ("Arena was sold out" ∈
      (if pyStr v == "1" || isTrueBool v then ["Arena was sold out"] else []) ++
        emptyGameFacts ↔ (pyStr v = "1" ∨ isTrueBool v = true)) ∧
    filter_relevant_statistics (selloutRec (.s "true")) = .ok emptyGameFacts ∧
    filter_relevant_statistics (selloutRec (.f 1)) = .ok emptyGameFacts := by
  refine ⟨?_, ?_, by decide, by decide⟩
  · have h2 := filter_eq (selloutRec v) (.o [("sellout", v)]) (.s "") (.o []) (.s "") (.s "")
      v (.o []) (.o []) emptyTeamFacts emptyTeamFacts
      ["Game was decided by 0 points (close game)"]
      rfl rfl rfl rfl rfl rfl rfl rfl (by decide) (by decide) (by decide)
    rw [h2]
    simp [pyTruthy, emptyGameFacts, emptyTeamFacts]
  · by_cases hc : pyStr v = "1" ∨ isTrueBool v = true
    · have hb : (pyStr v == "1" || isTrueBool v) = true := by
        rcases hc with h | h
        · simp [h]
        · simp [h]
      rw [hb]
      simpa using hc
    · have hb : (pyStr v == "1" || isTrueBool v) = false := by
        rcases not_or.mp hc with ⟨h1, h2⟩
        simp [h1, h2]
      rw [hb]
      simp only [Bool.false_eq_true, if_false, List.nil_append]
      constructor
      · intro hmem
        exact absurd hmem (by decide)
      · intro hcc
        exact absurd hcc hc

/-- A team record with no `statistics` mapping. -/
def noStatsTeam : JVal :=
  .o [("teamCity", .s "Boston"), ("teamName", .s "Celtics"), ("score", .i 100)]

/-- C3 counterexample: with the statistics mapping entirely absent, the
extractor still emits the conditionally-emitted field-goal-percentage
line (the default 0 satisfies `0 < 0.4`), so the output is not only the
three always-emitted lines. -/
theorem extract_no_stats_emits_fg :
    extract_team_statistics noStatsTeam "home" =
      .ok ["Boston Celtics: 100 points",
        "Boston Celtics rebounds: 0 total (0 offensive, 0 defensive)",
        "Boston Celtics turnovers: 0",
        "Boston Celtics field goal percentage: 0.0%"] ∧
    extract_team_statistics noStatsTeam "home" ≠
      .ok ["Boston Celtics: 100 points",
        "Boston Celtics rebounds: 0 total (0 offensive, 0 defensive)",
        "Boston Celtics turnovers: 0"] := by
  constructor
  · decide
  · decide

/-- C3 amended: for every team record whose `statistics` mapping is
absent, the extractor yields exactly the score line, the rebounds line,
the turnovers line, and the degenerate `0.0%` field-goal line; the
other conditionally-emitted lines are omitted. -/
theorem extract_no_statistics (fields : List (String × JVal)) (t : String)
    (h : hasKey fields "statistics" = false) :
    extract_team_statistics (.o fields) t =
      .ok
        [pyStrip (pyStr (lookupOr fields "teamCity" (.s "")) ++ " " ++
            pyStr (lookupOr fields "teamName" (.s ""))) ++ ": " ++
          pyStr (lookupOr fields "score" (.i 0)) ++ " points",
         pyStrip (pyStr (lookupOr fields "teamCity" (.s "")) ++ " " ++
            pyStr (lookupOr fields "teamName" (.s ""))) ++
          " rebounds: 0 total (0 offensive, 0 defensive)",
         pyStrip (pyStr (lookupOr fields "teamCity" (.s "")) ++ " " ++
            pyStr (lookupOr fields "teamName" (.s ""))) ++ " turnovers: 0",
         pyStrip (pyStr (lookupOr fields "teamCity" (.s "")) ++ " " ++
            pyStr (lookupOr fields "teamName" (.s ""))) ++
          " field goal percentage: 0.0%"] := by
  have hl : lookupOr fields "statistics" (.o []) = .o [] :=
    lookupOr_of_no_key fields "statistics" (.o []) h
  have h3 : dictGet (.o fields) "statistics" (.o []) = .ok (.o []) := by
    simp [dictGet, hl]
  have h2 := extract_eq (.o fields) t
    (lookupOr fields "teamCity" (.s "")) (lookupOr fields "teamName" (.s ""))
    (.o []) (lookupOr fields "score" (.i 0))
    (pyStrip (pyStr (lookupOr fields "teamCity" (.s "")) ++ " " ++
      pyStr (lookupOr fields "teamName" (.s ""))))
    [] []
    [pyStrip (pyStr (lookupOr fields "teamCity" (.s "")) ++ " " ++
      pyStr (lookupOr fields "teamName" (.s ""))) ++
      " rebounds: 0 total (0 offensive, 0 defensive)"]
    [pyStrip (pyStr (lookupOr fields "teamCity" (.s "")) ++ " " ++
      pyStr (lookupOr fields "teamName" (.s ""))) ++ " turnovers: 0"]
    [pyStrip (pyStr (lookupOr fields "teamCity" (.s "")) ++ " " ++
      pyStr (lookupOr fields "teamName" (.s ""))) ++ " field goal percentage: 0.0%"]
    [] [] []
    rfl rfl h3 rfl rfl (teamBench_defaults _) (teamLead_defaults _)
    (teamRebound_defaults _) (teamTurnover_defaults _) (teamFg_defaults _)
    (teamThree_defaults _) (teamFastBreak_defaults _) (teamPot_defaults _)
  rw [h2]
  simp

/-- Witness for C3 amended, at a team record with city, name and score
but no statistics. -/
theorem extract_no_statistics_witness :
    extract_team_statistics noStatsTeam "home" =
      .ok ["Boston Celtics: 100 points",
        "Boston Celtics rebounds: 0 total (0 offensive, 0 defensive)",
        "Boston Celtics turnovers: 0",
        "Boston Celtics field goal percentage: 0.0%"] := by
  have h := extract_no_statistics
    [("teamCity", .s "Boston"), ("teamName", .s "Celtics"), ("score", .i 100)] "home"
    (by decide)
  exact h.trans (by decide)

/-- Success of `dictGet` determines the total lookup. -/
theorem lookupOrJ_of_dictGet {v : JVal} {k : String} {d x : JVal}
    (h : dictGet v k d = .ok x) : lookupOrJ v k d = x := by
  cases v with
  | o fields => exact Except.ok.inj h ▸ rfl
  | s a => exact absurd h (by simp [dictGet])
  | i a => exact absurd h (by simp [dictGet])
  | f a => exact absurd h (by simp [dictGet])
  | b a => exact absurd h (by simp [dictGet])

/-- Modelled from the spec (§4.4): the time-of-day fact, emitted when a
game time is present. -/
def timeOfDayFacts (game : JVal) : List String :=
  if pyTruthy (lookupOrJ game "gameTimeLocal" (.s "")) then
    ["Game was played in the " ++ determine_time_of_day (lookupOrJ game "gameTimeLocal" (.s ""))]
  else []

/-- Modelled from the spec (§4.4): the venue fact, emitted when both
arena name and city are non-empty. -/
def venueFacts (game : JVal) : List String :=
  if pyTruthy (lookupOrJ (lookupOrJ game "arena" (.o [])) "arenaName" (.s "")) &&
      pyTruthy (lookupOrJ (lookupOrJ game "arena" (.o [])) "arenaCity" (.s "")) then
    ["Venue: " ++ pyStr (lookupOrJ (lookupOrJ game "arena" (.o [])) "arenaName" (.s "")) ++
      " in " ++ pyStr (lookupOrJ (lookupOrJ game "arena" (.o [])) "arenaCity" (.s ""))]
  else []

/-- Modelled from the spec (§4.4): the sellout fact. -/
def selloutFacts (game : JVal) : List String :=
  if pyStr (lookupOrJ game "sellout" (.s "0")) == "1" ||
      isTrueBool (lookupOrJ game "sellout" (.s "0")) then ["Arena was sold out"] else []

/-- C5: every successfully produced fact sequence decomposes as the
time-of-day facts, then the venue facts, then the sellout facts, then
the home-team facts, then the away-team facts, then the game-level
context facts, in exactly this order. -/
theorem filter_fact_order (game_data : JVal) (facts : List String)
    (h : filter_relevant_statistics game_data = .ok facts) :
    ∃ (game home_team away_team : JVal) (hs as cs : List String),
      dictGet game_data "game" (.o []) = .ok game ∧
      dictGet game "homeTeam" (.o []) = .ok home_team ∧
      dictGet game "awayTeam" (.o []) = .ok away_team ∧
      extract_team_statistics home_team "home" = .ok hs ∧
      extract_team_statistics away_team "away" = .ok as ∧
      calculate_game_context home_team away_team = .ok cs ∧
      facts = timeOfDayFacts game ++ venueFacts game ++ selloutFacts game ++
        hs ++ as ++ cs := by
  unfold filter_relevant_statistics at h
  cases hg : dictGet game_data "game" (.o []) with
  | error e => rw [hg] at h; exact absurd h (by simp [errBind])
  | ok game =>
  rw [hg] at h
  simp only [okBind] at h
  cases hgtl : dictGet game "gameTimeLocal" (.s "") with
  | error e => rw [hgtl] at h; exact absurd h (by simp [errBind])
  | ok gtl =>
  rw [hgtl] at h
  simp only [okBind] at h
  cases har : dictGet game "arena" (.o []) with
  | error e => rw [har] at h; exact absurd h (by simp [errBind])
  | ok arena =>
  rw [har] at h
  simp only [okBind] at h
  cases han : dictGet arena "arenaName" (.s "") with
  | error e => rw [han] at h; exact absurd h (by simp [errBind])
  | ok an =>
  rw [han] at h
  simp only [okBind] at h
  cases hac : dictGet arena "arenaCity" (.s "") with
  | error e => rw [hac] at h; exact absurd h (by simp [errBind])
  | ok ac =>
  rw [hac] at h
  simp only [okBind] at h
  cases hsv : dictGet game "sellout" (.s "0") with
  | error e => rw [hsv] at h; exact absurd h (by simp [errBind])
  | ok sv =>
  rw [hsv] at h
  simp only [okBind] at h
  cases hht : dictGet game "homeTeam" (.o []) with
  | error e => rw [hht] at h; exact absurd h (by simp [errBind])
  | ok home_team =>
  rw [hht] at h
  simp only [okBind] at h
  cases hat : dictGet game "awayTeam" (.o []) with
  | error e => rw [hat] at h; exact absurd h (by simp [errBind])
  | ok away_team =>
  rw [hat] at h
  simp only [okBind] at h
  cases hhs : extract_team_statistics home_team "home" with
  | error e => rw [hhs] at h; exact absurd h (by simp [errBind])
  | ok hs =>
  rw [hhs] at h
  simp only [okBind] at h
  cases has : extract_team_statistics away_team "away" with
  | error e => rw [has] at h; exact absurd h (by simp [errBind])
  | ok as =>
  rw [has] at h
  simp only [okBind] at h
  cases hcs : calculate_game_context home_team away_team with
  | error e => rw [hcs] at h; exact absurd h (by simp [errBind])
  | ok cs =>
  rw [hcs] at h
  simp only [okBind, purePure] at h
  refine ⟨game, home_team, away_team, hs, as, cs, rfl, hht, hat, hhs, has, hcs, ?_⟩
  rw [← Except.ok.inj h]
  simp [timeOfDayFacts, venueFacts, selloutFacts, lookupOrJ_of_dictGet hgtl,
    lookupOrJ_of_dictGet har, lookupOrJ_of_dictGet han, lookupOrJ_of_dictGet hac,
    lookupOrJ_of_dictGet hsv]

/-- A home team record with every optional statistic populated. -/
def fullHome : JVal := .o [
  ("teamCity", .s "Boston"), ("teamName", .s "Celtics"), ("score", .i 115),
  ("statistics", .o [
    ("benchPoints", .i 30), ("biggestLead", .i 12), ("biggestLeadScore", .s "80-68"),
    ("reboundsOffensive", .i 10), ("reboundsDefensive", .i 35), ("reboundsTotal", .i 45),
    ("turnoversTotal", .i 10), ("fieldGoalsPercentage", .f (Rat.mk' 11 20)),
    ("threePointersPercentage", .f (Rat.mk' 9 20)), ("threePointersMade", .i 15),
    ("pointsFastBreak", .i 20), ("pointsFromTurnovers", .i 18), ("leadChanges", .i 7)])]

/-- An away team record with every optional statistic populated. -/
def fullAway : JVal := .o [
  ("teamCity", .s "Los Angeles"), ("teamName", .s "Lakers"), ("score", .i 100),
  ("statistics", .o [
    ("benchPoints", .i 25), ("biggestLead", .i 1), ("biggestLeadScore", .s "10-9"),
    ("reboundsOffensive", .i 8), ("reboundsDefensive", .i 22), ("reboundsTotal", .i 30),
    ("turnoversTotal", .i 4), ("fieldGoalsPercentage", .f (Rat.mk' 7 20)),
    ("threePointersPercentage", .f (Rat.mk' 1 5)), ("threePointersMade", .i 6),
    ("pointsFastBreak", .i 15), ("pointsFromTurnovers", .i 15)])]

/-- A box-score record with every optional field populated. -/
def fullRec : JVal := .o [("game", .o [
  ("gameTimeLocal", .s "2021-01-15T19:30:00-05:00"),
  ("arena", .o [("arenaName", .s "TD Garden"), ("arenaCity", .s "Boston")]),
  ("sellout", .s "1"),
  ("homeTeam", fullHome),
  ("awayTeam", fullAway)])]

set_option maxRecDepth 100000 in
/-- Witness for C5: a record with all optional fields populated produces
its facts in the contracted order. -/
theorem filter_fact_order_witness :
    ∃ (game home_team away_team : JVal) (hs as cs : List String),
      dictGet fullRec "game" (.o []) = .ok game ∧
      dictGet game "homeTeam" (.o []) = .ok home_team ∧
      dictGet game "awayTeam" (.o []) = .ok away_team ∧
      extract_team_statistics home_team "home" = .ok hs ∧
      extract_team_statistics away_team "away" = .ok as ∧
      calculate_game_context home_team away_team = .ok cs ∧
      ["Game was played in the evening", "Venue: TD Garden in Boston", "Arena was sold out",
        "Boston Celtics: 115 points", "Boston Celtics bench: 30 points",
        "Boston Celtics biggest lead: 12 points (80-68)",
        "Boston Celtics rebounds: 45 total (10 offensive, 35 defensive)",
        "Boston Celtics turnovers: 10", "Boston Celtics field goal percentage: 55.0%",
        "Boston Celtics three-pointers: 15 made (45.0%)",
        "Boston Celtics fast break points: 20", "Boston Celtics points off turnovers: 18",
        "Los Angeles Lakers: 100 points", "Los Angeles Lakers bench: 25 points",
        "Los Angeles Lakers biggest lead: 1 point (10-9)",
        "Los Angeles Lakers rebounds: 30 total (8 offensive, 22 defensive)",
        "Los Angeles Lakers turnovers: 4", "Los Angeles Lakers field goal percentage: 35.0%",
        "Los Angeles Lakers three-pointers: 6 made (20.0%)",
        "Los Angeles Lakers fast break points: 15",
        "Los Angeles Lakers points off turnovers: 15",
        "Game was decided by 15 points (blowout)",
        "Game featured 7 lead changes (back-and-forth)",
        "Home team dominated rebounding (+15 rebounds)",
        "Away team had 6 fewer turnovers"] =
        timeOfDayFacts game ++ venueFacts game ++ selloutFacts game ++ hs ++ as ++ cs :=
  filter_fact_order fullRec _ (by decide)

/-! ### Well-shaped records (for the no-exception property)

A record family in which every field is optional and, when present, has
the type the upstream schema gives it.  Dropping any subset of fields
produces every "partially populated" record shape. -/

/-- Arena sub-record: both fields optional strings. -/
structure ArenaR where
  arenaName : Option String
  arenaCity : Option String

/-- Statistics mapping: counts are optional ints, percentages optional
floats, the lead score an optional string. -/
structure StatsR where
  benchPoints : Option Int
  biggestLead : Option Int
  biggestLeadScore : Option String
  reboundsOffensive : Option Int
  reboundsDefensive : Option Int
  reboundsTotal : Option Int
  turnoversTotal : Option Int
  fieldGoalsPercentage : Option Rat
  threePointersPercentage : Option Rat
  threePointersMade : Option Int
  pointsFastBreak : Option Int
  pointsFromTurnovers : Option Int
  leadChanges : Option Int

/-- Team record: names optional strings, score an optional int, the
statistics mapping optional. -/
structure TeamR where
  teamCity : Option String
  teamName : Option String
  score : Option Int
  statistics : Option StatsR

/-- Game record.  The sellout indicator may hold ANY value: it is only
ever rendered with str() or compared by identity, never ordered. -/
structure GameR where
  gameTimeLocal : Option String
  arena : Option ArenaR
  sellout : Option JVal
  homeTeam : Option TeamR
  awayTeam : Option TeamR

/-- Top-level record with an optional game. -/
structure RecordR where
  game : Option GameR

/-- A present field becomes one binding; an absent one no binding. -/
def optField (k : String) (o : Option JVal) : List (String × JVal) :=
  match o with
  | some v => [(k, v)]
  | none => []

/-- The bindings a `StatsR` denotes. -/
def statsFields (s : StatsR) : List (String × JVal) :=
  (optField "benchPoints" (s.benchPoints.map .i) ++
      optField "biggestLead" (s.biggestLead.map .i) ++
      optField "biggestLeadScore" (s.biggestLeadScore.map .s) ++
      optField "reboundsOffensive" (s.reboundsOffensive.map .i) ++
      optField "reboundsDefensive" (s.reboundsDefensive.map .i) ++
      optField "reboundsTotal" (s.reboundsTotal.map .i) ++
      optField "turnoversTotal" (s.turnoversTotal.map .i) ++
      optField "fieldGoalsPercentage" (s.fieldGoalsPercentage.map .f) ++
      optField "threePointersPercentage" (s.threePointersPercentage.map .f) ++
      optField "threePointersMade" (s.threePointersMade.map .i) ++
      optField "pointsFastBreak" (s.pointsFastBreak.map .i) ++
      optField "pointsFromTurnovers" (s.pointsFromTurnovers.map .i) ++
      optField "leadChanges" (s.leadChanges.map .i))

/-- The dictionary a `StatsR` denotes. -/
def statsJ (s : StatsR) : JVal := .o (statsFields s)

/-- The bindings an `ArenaR` denotes. -/
def arenaFields (a : ArenaR) : List (String × JVal) :=
  (optField "arenaName" (a.arenaName.map .s) ++ optField "arenaCity" (a.arenaCity.map .s))

/-- The dictionary an `ArenaR` denotes. -/
def arenaJ (a : ArenaR) : JVal := .o (arenaFields a)

/-- The bindings a `TeamR` denotes. -/
def teamFields (tr : TeamR) : List (String × JVal) :=
  (optField "teamCity" (tr.teamCity.map .s) ++ optField "teamName" (tr.teamName.map .s) ++
      optField "score" (tr.score.map .i) ++ optField "statistics" (tr.statistics.map statsJ))

/-- The dictionary a `TeamR` denotes. -/
def teamJ (tr : TeamR) : JVal := .o (teamFields tr)

/-- The bindings a `GameR` denotes. -/
def gameFields (g : GameR) : List (String × JVal) :=
  (optField "gameTimeLocal" (g.gameTimeLocal.map .s) ++
      optField "arena" (g.arena.map arenaJ) ++
      optField "sellout" g.sellout ++
      optField "homeTeam" (g.homeTeam.map teamJ) ++
      optField "awayTeam" (g.awayTeam.map teamJ))

/-- The dictionary a `GameR` denotes. -/
def gameJ (g : GameR) : JVal := .o (gameFields g)

/-- The dictionary a `RecordR` denotes. -/
def recordJ (r : RecordR) : JVal := .o (optField "game" (r.game.map gameJ))

theorem lookupOr_append (l1 l2 : List (String × JVal)) (k : String) (d : JVal) :
    lookupOr (l1 ++ l2) k d = lookupOr l1 k (lookupOr l2 k d) := by
  induction l1 with
  | nil => rfl
  | cons kv rest ih => simp [List.cons_append, lookupOr, ih]

theorem lookupOr_optField (k k2 : String) (o : Option JVal) (d : JVal) :
    lookupOr (optField k2 o) k d = if k2 = k then o.getD d else d := by
  cases o with
  | none => simp [optField, lookupOr]
  | some v => simp [optField, lookupOr]

/-! ### Totality of each segment on well-shaped inputs -/

theorem teamBench_ok (tn : String) (fs : List (String × JVal))
    (h : ∃ r, toNum (lookupOr fs "benchPoints" (.i 0)) = some r) :
    ∃ out, teamBenchFacts tn (.o fs) = .ok out := by
  obtain ⟨r, hr⟩ := h
  unfold teamBenchFacts
  simp only [dictGet, okBind, pyGtNum, hr]
  cases hdec : decide ((0 : Rat) < r) <;> simp [hdec, purePure]

theorem teamLead_ok (tn : String) (fs : List (String × JVal))
    (h : ∃ r, toNum (lookupOr fs "biggestLead" (.i 0)) = some r) :
    ∃ out, teamLeadFacts tn (.o fs) = .ok out := by
  obtain ⟨r, hr⟩ := h
  unfold teamLeadFacts
  simp only [dictGet, okBind, pyGtNum, hr]
  cases hdec : decide ((0 : Rat) < r) <;> simp [hdec, purePure, dictGet, okBind]

theorem teamRebound_ok (tn : String) (fs : List (String × JVal)) :
    ∃ out, teamReboundFacts tn (.o fs) = .ok out := by
  unfold teamReboundFacts
  simp only [dictGet, okBind, purePure]
  exact ⟨_, rfl⟩

theorem teamTurnover_ok (tn : String) (fs : List (String × JVal)) :
    ∃ out, teamTurnoverFacts tn (.o fs) = .ok out := by
  unfold teamTurnoverFacts
  simp only [dictGet, okBind, purePure]
  exact ⟨_, rfl⟩

theorem teamFg_ok (tn : String) (fs : List (String × JVal))
    (h : ∃ r, toNum (lookupOr fs "fieldGoalsPercentage" (.i 0)) = some r) :
    ∃ out, teamFgFacts tn (.o fs) = .ok out := by
  obtain ⟨r, hr⟩ := h
  unfold teamFgFacts
  simp only [dictGet, okBind, pyGtNum, pyLtNum, hr]
  cases h1 : decide (ratHalf < r) with
  | true => simp [h1, purePure, okBind]
  | false => cases h2 : decide (r < ratTwoFifths) <;> simp [h1, h2, purePure, okBind]

theorem teamThree_ok (tn : String) (fs : List (String × JVal))
    (hpct : ∃ r, toNum (lookupOr fs "threePointersPercentage" (.i 0)) = some r)
    (hmade : ∃ r, toNum (lookupOr fs "threePointersMade" (.i 0)) = some r) :
    ∃ out, teamThreeFacts tn (.o fs) = .ok out := by
  obtain ⟨rp, hrp⟩ := hpct
  obtain ⟨rm, hrm⟩ := hmade
  unfold teamThreeFacts
  simp only [dictGet, okBind, pyGtNum, pyLtNum, hrp, hrm]
  cases h1 : decide (ratTwoFifths < rp) with
  | true => simp [h1, purePure, okBind]
  | false =>
    cases h2 : decide (rp < ratQuarter) with
    | false => simp [h1, h2, purePure, okBind]
    | true => cases h3 : decide ((5 : Rat) < rm) <;> simp [h1, h2, h3, purePure, okBind]

theorem teamFastBreak_ok (tn : String) (fs : List (String × JVal))
    (h : ∃ r, toNum (lookupOr fs "pointsFastBreak" (.i 0)) = some r) :
    ∃ out, teamFastBreakFacts tn (.o fs) = .ok out := by
  obtain ⟨r, hr⟩ := h
  unfold teamFastBreakFacts
  simp only [dictGet, okBind, pyGeNum, hr]
  cases hdec : decide ((15 : Rat) ≤ r) <;> simp [hdec, purePure]

theorem teamPot_ok (tn : String) (fs : List (String × JVal))
    (h : ∃ r, toNum (lookupOr fs "pointsFromTurnovers" (.i 0)) = some r) :
    ∃ out, teamPotFacts tn (.o fs) = .ok out := by
  obtain ⟨r, hr⟩ := h
  unfold teamPotFacts
  simp only [dictGet, okBind, pyGeNum, hr]
  cases hdec : decide ((15 : Rat) ≤ r) <;> simp [hdec, purePure]

theorem ctxPointDiff_ok (hfs afs : List (String × JVal))
    (hh : ∃ n : Int, lookupOr hfs "score" (.i 0) = .i n)
    (ha : ∃ m : Int, lookupOr afs "score" (.i 0) = .i m) :
    ∃ out, ctxPointDiffFacts (.o hfs) (.o afs) = .ok out := by
  obtain ⟨n, hn⟩ := hh
  obtain ⟨m, hm⟩ := ha
  unfold ctxPointDiffFacts
  simp only [dictGet, okBind, hn, hm, pySub, pyAbs, pyLeNum, toNum]
  cases h1 : decide (((n - m).natAbs : Rat) ≤ 5) with
  | true => simp [h1, purePure, okBind]
  | false => cases h2 : decide (((n - m).natAbs : Rat) ≤ 10) <;> simp [h1, h2, purePure, okBind]

theorem ctxLead_ok (fs : List (String × JVal))
    (h : ∃ r, toNum (lookupOr fs "leadChanges" (.i 0)) = some r) :
    ∃ out, ctxLeadFacts (.o fs) = .ok out := by
  obtain ⟨r, hr⟩ := h
  unfold ctxLeadFacts
  simp only [dictGet, okBind, pyGtNum, hr]
  cases h1 : decide ((5 : Rat) < r) with
  | true => simp [h1, purePure, okBind]
  | false => cases h2 : decide ((0 : Rat) < r) <;> simp [h1, h2, purePure, okBind]

theorem ctxRebound_ok (hfs afs : List (String × JVal))
    (hh : ∃ n : Int, lookupOr hfs "reboundsTotal" (.i 0) = .i n)
    (ha : ∃ m : Int, lookupOr afs "reboundsTotal" (.i 0) = .i m) :
    ∃ out, ctxReboundFacts (.o hfs) (.o afs) = .ok out := by
  obtain ⟨n, hn⟩ := hh
  obtain ⟨m, hm⟩ := ha
  unfold ctxReboundFacts
  simp only [dictGet, okBind, hn, hm, pySub, pyAbs, pyGeNum, pyGtV, toNum]
  cases h1 : decide ((10 : Rat) ≤ ((n - m).natAbs : Rat)) <;> simp [h1, purePure, okBind]

theorem ctxTurnover_ok (hfs afs : List (String × JVal))
    (hh : ∃ n : Int, lookupOr hfs "turnoversTotal" (.i 0) = .i n)
    (ha : ∃ m : Int, lookupOr afs "turnoversTotal" (.i 0) = .i m) :
    ∃ out, ctxTurnoverFacts (.o hfs) (.o afs) = .ok out := by
  obtain ⟨n, hn⟩ := hh
  obtain ⟨m, hm⟩ := ha
  unfold ctxTurnoverFacts
  simp only [dictGet, okBind, hn, hm, pySub, pyAbs, pyGeNum, pyLtV, toNum]
  cases h1 : decide ((5 : Rat) ≤ ((n - m).natAbs : Rat)) <;> simp [h1, purePure, okBind]

/-! ### The values well-shaped records hold at each accessed key -/

theorem statsFields_bench (s : StatsR) :
    ∃ r, toNum (lookupOr (statsFields s) "benchPoints" (.i 0)) = some r := by
  cases hb : s.benchPoints with
  | none => exact ⟨0, by simp [statsFields, lookupOr_append, lookupOr_optField, hb, toNum]⟩
  | some n =>
    exact ⟨(n : Rat), by simp [statsFields, lookupOr_append, lookupOr_optField, hb, toNum]⟩

theorem statsFields_biggestLead (s : StatsR) :
    ∃ r, toNum (lookupOr (statsFields s) "biggestLead" (.i 0)) = some r := by
  cases hb : s.biggestLead with
  | none => exact ⟨0, by simp [statsFields, lookupOr_append, lookupOr_optField, hb, toNum]⟩
  | some n =>
    exact ⟨(n : Rat), by simp [statsFields, lookupOr_append, lookupOr_optField, hb, toNum]⟩

theorem statsFields_fgPct (s : StatsR) :
    ∃ r, toNum (lookupOr (statsFields s) "fieldGoalsPercentage" (.i 0)) = some r := by
  cases hb : s.fieldGoalsPercentage with
  | none => exact ⟨0, by simp [statsFields, lookupOr_append, lookupOr_optField, hb, toNum]⟩
  | some q => exact ⟨q, by simp [statsFields, lookupOr_append, lookupOr_optField, hb, toNum]⟩

theorem statsFields_tpPct (s : StatsR) :
    ∃ r, toNum (lookupOr (statsFields s) "threePointersPercentage" (.i 0)) = some r := by
  cases hb : s.threePointersPercentage with
  | none => exact ⟨0, by simp [statsFields, lookupOr_append, lookupOr_optField, hb, toNum]⟩
  | some q => exact ⟨q, by simp [statsFields, lookupOr_append, lookupOr_optField, hb, toNum]⟩

theorem statsFields_tpMade (s : StatsR) :
    ∃ r, toNum (lookupOr (statsFields s) "threePointersMade" (.i 0)) = some r := by
  cases hb : s.threePointersMade with
  | none => exact ⟨0, by simp [statsFields, lookupOr_append, lookupOr_optField, hb, toNum]⟩
  | some n =>
    exact ⟨(n : Rat), by simp [statsFields, lookupOr_append, lookupOr_optField, hb, toNum]⟩

theorem statsFields_fastBreak (s : StatsR) :
    ∃ r, toNum (lookupOr (statsFields s) "pointsFastBreak" (.i 0)) = some r := by
  cases hb : s.pointsFastBreak with
  | none => exact ⟨0, by simp [statsFields, lookupOr_append, lookupOr_optField, hb, toNum]⟩
  | some n =>
    exact ⟨(n : Rat), by simp [statsFields, lookupOr_append, lookupOr_optField, hb, toNum]⟩

theorem statsFields_pot (s : StatsR) :
    ∃ r, toNum (lookupOr (statsFields s) "pointsFromTurnovers" (.i 0)) = some r := by
  cases hb : s.pointsFromTurnovers with
  | none => exact ⟨0, by simp [statsFields, lookupOr_append, lookupOr_optField, hb, toNum]⟩
  | some n =>
    exact ⟨(n : Rat), by simp [statsFields, lookupOr_append, lookupOr_optField, hb, toNum]⟩

theorem statsFields_leadChanges (s : StatsR) :
    ∃ r, toNum (lookupOr (statsFields s) "leadChanges" (.i 0)) = some r := by
  cases hb : s.leadChanges with
  | none => exact ⟨0, by simp [statsFields, lookupOr_append, lookupOr_optField, hb, toNum]⟩
  | some n =>
    exact ⟨(n : Rat), by simp [statsFields, lookupOr_append, lookupOr_optField, hb, toNum]⟩

theorem statsFields_reboundsTotal (s : StatsR) :
    ∃ n : Int, lookupOr (statsFields s) "reboundsTotal" (.i 0) = .i n := by
  cases hb : s.reboundsTotal with
  | none => exact ⟨0, by simp [statsFields, lookupOr_append, lookupOr_optField, hb]⟩
  | some n => exact ⟨n, by simp [statsFields, lookupOr_append, lookupOr_optField, hb]⟩

theorem statsFields_turnoversTotal (s : StatsR) :
    ∃ n : Int, lookupOr (statsFields s) "turnoversTotal" (.i 0) = .i n := by
  cases hb : s.turnoversTotal with
  | none => exact ⟨0, by simp [statsFields, lookupOr_append, lookupOr_optField, hb]⟩
  | some n => exact ⟨n, by simp [statsFields, lookupOr_append, lookupOr_optField, hb]⟩

theorem teamFields_score (tr : TeamR) :
    ∃ n : Int, lookupOr (teamFields tr) "score" (.i 0) = .i n := by
  cases hb : tr.score with
  | none => exact ⟨0, by simp [teamFields, lookupOr_append, lookupOr_optField, hb]⟩
  | some n => exact ⟨n, by simp [teamFields, lookupOr_append, lookupOr_optField, hb]⟩

theorem teamFields_stats (tr : TeamR) :
    lookupOr (teamFields tr) "statistics" (.o []) =
      ((tr.statistics.map statsJ).getD (.o [])) := by
  cases hb : tr.statistics <;>
    simp [teamFields, lookupOr_append, lookupOr_optField, hb]

/-! ### Totality on well-shaped records -/

theorem extract_team_ok (team : JVal) (t : String)
    (h : team = .o [] ∨ ∃ tr : TeamR, team = teamJ tr) :
    ∃ out, extract_team_statistics team t = .ok out := by
  rcases h with rfl | ⟨tr, rfl⟩
  · exact ⟨_, extract_eq (.o []) t (.s "") (.s "") (.o []) (.i 0) ""
      [] [] _ _ _ [] [] []
      rfl rfl rfl rfl rfl (teamBench_defaults "") (teamLead_defaults "")
      (teamRebound_defaults "") (teamTurnover_defaults "") (teamFg_defaults "")
      (teamThree_defaults "") (teamFastBreak_defaults "") (teamPot_defaults "")⟩
  · cases hst : tr.statistics with
    | none =>
      have hstats : dictGet (teamJ tr) "statistics" (.o []) = .ok (.o []) := by
        simp [teamJ, dictGet, teamFields_stats, hst]
      exact ⟨_, extract_eq (teamJ tr) t
        (lookupOr (teamFields tr) "teamCity" (.s ""))
        (lookupOr (teamFields tr) "teamName" (.s ""))
        (.o []) (lookupOr (teamFields tr) "score" (.i 0))
        (pyStrip (pyStr (lookupOr (teamFields tr) "teamCity" (.s "")) ++ " " ++
          pyStr (lookupOr (teamFields tr) "teamName" (.s ""))))
        [] [] _ _ _ [] [] []
        rfl rfl hstats rfl rfl (teamBench_defaults _) (teamLead_defaults _)
        (teamRebound_defaults _) (teamTurnover_defaults _) (teamFg_defaults _)
        (teamThree_defaults _) (teamFastBreak_defaults _) (teamPot_defaults _)⟩
    | some s =>
      have hstats : dictGet (teamJ tr) "statistics" (.o []) = .ok (statsJ s) := by
        simp [teamJ, dictGet, teamFields_stats, hst, statsJ]
      obtain ⟨b, hb⟩ := teamBench_ok
        (pyStrip (pyStr (lookupOr (teamFields tr) "teamCity" (.s "")) ++ " " ++
          pyStr (lookupOr (teamFields tr) "teamName" (.s ""))))
        (statsFields s) (statsFields_bench s)
      obtain ⟨l, hlx⟩ := teamLead_ok _ (statsFields s) (statsFields_biggestLead s)
      obtain ⟨rr, hrx⟩ := teamRebound_ok
        (pyStrip (pyStr (lookupOr (teamFields tr) "teamCity" (.s "")) ++ " " ++
          pyStr (lookupOr (teamFields tr) "teamName" (.s "")))) (statsFields s)
      obtain ⟨tos, htox⟩ := teamTurnover_ok
        (pyStrip (pyStr (lookupOr (teamFields tr) "teamCity" (.s "")) ++ " " ++
          pyStr (lookupOr (teamFields tr) "teamName" (.s "")))) (statsFields s)
      obtain ⟨fg, hfgx⟩ := teamFg_ok _ (statsFields s) (statsFields_fgPct s)
      obtain ⟨th, hthx⟩ := teamThree_ok _ (statsFields s) (statsFields_tpPct s)
        (statsFields_tpMade s)
      obtain ⟨fb, hfbx⟩ := teamFastBreak_ok _ (statsFields s) (statsFields_fastBreak s)
      obtain ⟨pot, hpotx⟩ := teamPot_ok _ (statsFields s) (statsFields_pot s)
      exact ⟨_, extract_eq (teamJ tr) t
        (lookupOr (teamFields tr) "teamCity" (.s ""))
        (lookupOr (teamFields tr) "teamName" (.s ""))
        (statsJ s) (lookupOr (teamFields tr) "score" (.i 0))
        (pyStrip (pyStr (lookupOr (teamFields tr) "teamCity" (.s "")) ++ " " ++
          pyStr (lookupOr (teamFields tr) "teamName" (.s ""))))
        b l rr tos fg th fb pot
        rfl rfl hstats rfl rfl hb hlx hrx htox hfgx hthx hfbx hpotx⟩

theorem teamShape_props (team : JVal) (h : team = .o [] ∨ ∃ tr : TeamR, team = teamJ tr) :
    ∃ (tfs sfs : List (String × JVal)), team = .o tfs ∧
      (∃ n : Int, lookupOr tfs "score" (.i 0) = .i n) ∧
      lookupOr tfs "statistics" (.o []) = .o sfs ∧
      (∃ n : Int, lookupOr sfs "reboundsTotal" (.i 0) = .i n) ∧
      (∃ n : Int, lookupOr sfs "turnoversTotal" (.i 0) = .i n) ∧
      (∃ r : Rat, toNum (lookupOr sfs "leadChanges" (.i 0)) = some r) := by
  rcases h with rfl | ⟨tr, rfl⟩
  · exact ⟨[], [], rfl, ⟨0, rfl⟩, rfl, ⟨0, rfl⟩, ⟨0, rfl⟩, ⟨0, rfl⟩⟩
  · cases hst : tr.statistics with
    | none =>
      refine ⟨teamFields tr, [], rfl, teamFields_score tr, ?_, ⟨0, rfl⟩, ⟨0, rfl⟩, ⟨0, rfl⟩⟩
      rw [teamFields_stats tr, hst]
      rfl
    | some s =>
      refine ⟨teamFields tr, statsFields s, rfl, teamFields_score tr, ?_,
        statsFields_reboundsTotal s, statsFields_turnoversTotal s, statsFields_leadChanges s⟩
      rw [teamFields_stats tr, hst]
      rfl

theorem context_ok (home away : JVal)
    (hh : home = .o [] ∨ ∃ tr : TeamR, home = teamJ tr)
    (ha : away = .o [] ∨ ∃ tr : TeamR, away = teamJ tr) :
    ∃ out, calculate_game_context home away = .ok out := by
  obtain ⟨htfs, hsfs, hhEq, hhscore, hhstats, hhreb, hhto, hhlead⟩ := teamShape_props home hh
  obtain ⟨atfs, asfs, haEq, hascore, hastats, hareb, hato, halead⟩ := teamShape_props away ha
  subst hhEq
  subst haEq
  obtain ⟨d, hd⟩ := ctxPointDiff_ok htfs atfs hhscore hascore
  obtain ⟨l, hl⟩ := ctxLead_ok hsfs hhlead
  obtain ⟨rr, hr⟩ := ctxRebound_ok hsfs asfs hhreb hareb
  obtain ⟨tos, ht⟩ := ctxTurnover_ok hsfs asfs hhto hato
  refine ⟨_, context_eq (.o htfs) (.o atfs) (.o hsfs) (.o asfs) d l rr tos ?_ ?_ hd hl hr ht⟩
  · simp [dictGet, hhstats]
  · simp [dictGet, hastats]

theorem gameFields_home (g : GameR) :
    lookupOr (gameFields g) "homeTeam" (.o []) = .o [] ∨
      ∃ tr : TeamR, lookupOr (gameFields g) "homeTeam" (.o []) = teamJ tr := by
  cases hb : g.homeTeam with
  | none => left; simp [gameFields, lookupOr_append, lookupOr_optField, hb]
  | some tr =>
    right
    exact ⟨tr, by simp [gameFields, lookupOr_append, lookupOr_optField, hb]⟩

theorem gameFields_away (g : GameR) :
    lookupOr (gameFields g) "awayTeam" (.o []) = .o [] ∨
      ∃ tr : TeamR, lookupOr (gameFields g) "awayTeam" (.o []) = teamJ tr := by
  cases hb : g.awayTeam with
  | none => left; simp [gameFields, lookupOr_append, lookupOr_optField, hb]
  | some tr =>
    right
    exact ⟨tr, by simp [gameFields, lookupOr_append, lookupOr_optField, hb]⟩

theorem gameFields_arena (g : GameR) :
    ∃ afs, lookupOr (gameFields g) "arena" (.o []) = .o afs := by
  cases hb : g.arena with
  | none => exact ⟨[], by simp [gameFields, lookupOr_append, lookupOr_optField, hb]⟩
  | some a =>
    exact ⟨arenaFields a, by simp [gameFields, lookupOr_append, lookupOr_optField, hb, arenaJ]⟩

set_option maxRecDepth 100000 in
/-- C8 amended: for every record of the upstream schema shape with any
subset of fields absent (all fields optional, sub-records dictionaries,
statistic fields numeric, text fields strings, the sellout indicator
arbitrary), both `filter_relevant_statistics` and `generate_llm_prompt`
return normally; every missing field falls back to its 0 / empty-string
/ empty-dict default. -/
theorem filter_schema_total (r : RecordR) :
    ∃ (facts : List String) (prompt : String),
      filter_relevant_statistics (recordJ r) = .ok facts ∧
      generate_llm_prompt (recordJ r) = .ok prompt := by
  cases hg : r.game with
  | none =>
    have hrec : recordJ r = .o [] := by simp [recordJ, optField, hg]
    refine ⟨emptyGameFacts, compose_prompt emptyGameFacts "neutral, ESPN-style", ?_, ?_⟩
    · rw [hrec]; decide
    · rw [hrec]; decide
  | some g =>
    have h1 : dictGet (recordJ r) "game" (.o []) = .ok (gameJ g) := by
      simp [recordJ, dictGet, lookupOr, optField, hg]
    obtain ⟨afs, harena⟩ := gameFields_arena g
    obtain ⟨hs, hshome⟩ := extract_team_ok (lookupOr (gameFields g) "homeTeam" (.o []))
      "home" (gameFields_home g)
    obtain ⟨as, hsaway⟩ := extract_team_ok (lookupOr (gameFields g) "awayTeam" (.o []))
      "away" (gameFields_away g)
    obtain ⟨cs, hctx⟩ := context_ok (lookupOr (gameFields g) "homeTeam" (.o []))
      (lookupOr (gameFields g) "awayTeam" (.o [])) (gameFields_home g) (gameFields_away g)
    have han : dictGet (lookupOr (gameFields g) "arena" (.o [])) "arenaName" (.s "") =
        .ok (lookupOr afs "arenaName" (.s "")) := by rw [harena]; rfl
    have hac : dictGet (lookupOr (gameFields g) "arena" (.o [])) "arenaCity" (.s "") =
        .ok (lookupOr afs "arenaCity" (.s "")) := by rw [harena]; rfl
    have h2 := filter_eq (recordJ r) (gameJ g)
      (lookupOr (gameFields g) "gameTimeLocal" (.s ""))
      (lookupOr (gameFields g) "arena" (.o []))
      (lookupOr afs "arenaName" (.s ""))
      (lookupOr afs "arenaCity" (.s ""))
      (lookupOr (gameFields g) "sellout" (.s "0"))
      (lookupOr (gameFields g) "homeTeam" (.o []))
      (lookupOr (gameFields g) "awayTeam" (.o []))
      hs as cs h1 rfl rfl han hac rfl rfl rfl hshome hsaway hctx
    exact ⟨_, _, h2, generate_eq (recordJ r) "neutral, ESPN-style" _ h2⟩

/-- C8 counterexample: a dictionary input whose `game` field is not a
dictionary makes both functions raise `AttributeError` (at
`game.get('gameTimeLocal', ...)`), so not every dictionary input
returns normally. -/
theorem filter_bad_game_raises :
    filter_relevant_statistics (.o [("game", .i 1)]) = .error .attributeError ∧
    generate_llm_prompt (.o [("game", .i 1)]) = .error .attributeError := by
  constructor
  · decide
  · decide

end NbaRecap
